import Mathlib

/-!
Verification of the face-swap web service (src/app.py).

Shallow embedding of the request-handling logic of `src/app.py`.

External effects (HTTP GET, image decoding, the face detector, the face
swapper, JPEG encoding) are modelled as an explicit environment `Env` of
oracle functions; the scratch file system is an explicit association list
from path to bytes, threaded through the handler.  Machine floats in the
resize computation (`int(target_width / aspect_ratio)` with
`aspect_ratio = width / height`) are modelled by the exact rational floor
`(target_width * height) / width` on `Nat`.
-/

namespace FaceSwap

/-- Raw byte content of a file or HTTP body. -/
abbrev Bytes := List Nat

/-- The scratch file system: an association list from path to content.
Only regular files are modelled; directories are implicit in path strings. -/
abbrev FS := List (String × Bytes)

/-- Write (create or overwrite) a file. -/
def fsWrite (fs : FS) (p : String) (b : Bytes) : FS :=
  (p, b) :: fs.filter (fun e => e.1 ≠ p)

/-- Read a file's content, `none` when the path does not exist. -/
def fsRead (fs : FS) (p : String) : Option Bytes :=
  (fs.find? (fun e => e.1 = p)).map (fun e => e.2)

/-- Constant `UPLOAD_FOLDER = 'uploads'` (src/app.py line 10). -/
def UPLOAD_FOLDER : String := "uploads"

/-- Constant `MAX_WIDTH = 640` (src/app.py line 11). -/
def MAX_WIDTH : Nat := 640

/-- POSIX `os.path.join a b`: an absolute second component discards the
first; otherwise the parts are joined with a single separator. -/
def pathJoin (a b : String) : String :=
  if b.toList.head? = some '/' then b
  else if a.toList = [] ∨ a.toList.getLast? = some '/' then a ++ b
  else a ++ "/" ++ b

/-- ASCII lowercase of one character, as Python's `str.lower` acts on the
ASCII range (the filenames and extensions of interest). -/
def lowerChar (c : Char) : Char :=
  match c with
  | 'A' => 'a' | 'B' => 'b' | 'C' => 'c' | 'D' => 'd' | 'E' => 'e'
  | 'F' => 'f' | 'G' => 'g' | 'H' => 'h' | 'I' => 'i' | 'J' => 'j'
  | 'K' => 'k' | 'L' => 'l' | 'M' => 'm' | 'N' => 'n' | 'O' => 'o'
  | 'P' => 'p' | 'Q' => 'q' | 'R' => 'r' | 'S' => 's' | 'T' => 't'
  | 'U' => 'u' | 'V' => 'v' | 'W' => 'w' | 'X' => 'x' | 'Y' => 'y'
  | 'Z' => 'z'
  | c => c

/-- Python `s.lower()` (ASCII range). -/
def strLower (s : String) : String :=
  (s.toList.map lowerChar).asString

/-- The characters after the last dot of `s`:
`s.rsplit('.', 1)[1]` when `s` contains a dot. -/
def afterLastDot (s : String) : String :=
  ((s.toList.reverse.takeWhile (fun c => c ≠ '.')).reverse).asString

/-- The allowed image extensions (src/app.py line 28). -/
def allowedExts : List String := ["png", "jpg", "jpeg"]

/-- Function `allowed_file` (src/app.py lines 26-28):
`'.' in filename and filename.lower().rsplit('.', 1)[1] in {'png', 'jpg', 'jpeg'}`. -/
def allowed_file (filename : String) : Bool :=
  filename.toList.contains '.' && allowedExts.contains (afterLastDot (strLower filename))

/-- The same predicate phrased as the spec words it: the filename contains a
dot and its last dot-separated suffix, lowercased, is an allowed extension. -/
def allowed_file_spec (filename : String) : Bool :=
  filename.toList.contains '.' && allowedExts.contains (strLower (afterLastDot filename))

/-- A decoded raster image: `shape[0]` is the height, `shape[1]` the width;
`data` stands opaquely for the pixel content. -/
structure Image where
  height : Nat
  width : Nat
  data : Nat
deriving DecidableEq, Repr

/-- An opaque face record returned by the detector. -/
abbrev Face := Nat

/-- A file part of a multipart request (`werkzeug` file storage):
the client-supplied filename and the content. -/
structure UploadedFile where
  filename : String
  content : Bytes
deriving DecidableEq, Repr

/-- The fields of a `POST /swap-faces/` request that the handler reads
(src/app.py lines 92-96), named after the form keys. -/
structure Request where
  target_file : Option UploadedFile
  source_face : Option UploadedFile
  target_url : Option String
  source_face_url : Option String

/-- Python truthiness of `request.files.get(...)`: a missing part is `None`
(falsy); a present `FileStorage` is truthy exactly when its filename is
non-empty (werkzeug defines `__bool__` as `bool(self.filename)`). -/
def fileTruthy : Option UploadedFile → Bool
  | none => false
  | some f => f.filename ≠ ""

/-- Python truthiness of `request.form.get(...)`: `None` and the empty
string are falsy. -/
def strTruthy : Option String → Bool
  | none => false
  | some s => s ≠ ""

/-- The environment of external effects: HTTP, image decoding, the face
detector (`face_app.get`), the swapper (`swapper.get`), JPEG encoding.
`Except.error` models a raised exception / failed call. -/
structure Env where
  httpGet : String → Option (Nat × Bytes)
  imdecode : Bytes → Option Image
  detect : Image → List Face
  swap : Image → Face → Face → Except Unit Image
  encodeJpg : Image → Bytes

/-- A path lies directly in the uploads folder (what `os.listdir('uploads')`
enumerates and `os.path.isfile` accepts): prefix `uploads/` followed by a
name without a further separator. -/
def inUploadDir (p : String) : Bool :=
  "uploads/".toList.isPrefixOf p.toList && !((p.toList.drop 8).contains '/')

/-- Function `clear_uploads_folder` (src/app.py lines 42-51): remove every regular
file directly inside the uploads folder. -/
def clear_uploads_folder (fs : FS) : FS :=
  fs.filter (fun e => !(inUploadDir e.1))

/-- Function `save_uploaded_file` (src/app.py lines 54-65): save the upload at
`os.path.join(UPLOAD_FOLDER, uploaded_file.filename)`, returning the path. -/
def save_uploaded_file (f : UploadedFile) (fs : FS) : String × FS :=
  let file_path := pathJoin UPLOAD_FOLDER f.filename
  (file_path, fsWrite fs file_path f.content)

/-- Function `download_image_from_url` (src/app.py lines 67-75): HTTP GET; the body
on status 200, otherwise an exception.  `env.httpGet url = none` models a
network failure raised by `requests.get`. -/
def download_image_from_url (env : Env) (url : String) : Except String Bytes :=
  match env.httpGet url with
  | none => Except.error "Error al descargar la imagen desde la URL"
  | some (code, body) =>
      if code = 200 then Except.ok body
      else Except.error ("Error al descargar la imagen. Status Code: " ++ toString code)

/-- Function `save_image_from_bytes` (src/app.py lines 77-81). -/
def save_image_from_bytes (b : Bytes) (filename : String) (fs : FS) : String × FS :=
  let image_path := pathJoin UPLOAD_FOLDER filename
  (image_path, fsWrite fs image_path b)

/-- Reading `cv2.imread path` against the modelled file system: decode the bytes at
the path; `none` (Python `None`) when the file is missing or undecodable. -/
def imreadFS (env : Env) (fs : FS) (p : String) : Option Image :=
  (fsRead fs p).bind env.imdecode

/-- Lines 139-144: `target_width = min(640, source.shape[1])`;
`aspect_ratio = target.shape[1] / target.shape[0]`;
`cv2.resize(target, (target_width, int(target_width / aspect_ratio)))`.
`Except.error` models the exceptions that reach the handler's catch-all:
`ZeroDivisionError` when a target dimension is zero, and `cv2.error` when
the requested size is empty.  `int(target_width / aspect_ratio)` is the
floor `(target_width * height) / width`. -/
def targetResize (sImg tImg : Image) : Except Unit Image :=
  if tImg.height = 0 ∨ tImg.width = 0 then Except.error ()
  else if min MAX_WIDTH sImg.width = 0
      ∨ (min MAX_WIDTH sImg.width) * tImg.height / tImg.width = 0 then Except.error ()
  else Except.ok
    ⟨(min MAX_WIDTH sImg.width) * tImg.height / tImg.width, min MAX_WIDTH sImg.width, tImg.data⟩

/-- The two error classes of the handler: client errors answered with
status 400, server errors with status 500. -/
inductive ErrClass where
  | client
  | server
deriving DecidableEq, Repr

/-- An early return of the handler: its class, the JSON error message, the
file system at that point, and whether the swap model had been invoked. -/
structure Err where
  cls : ErrClass
  msg : String
  fs : FS
  swapCalled : Bool
deriving DecidableEq, Repr

/-- An HTTP response of the handler. -/
inductive Response where
  | json400 (msg : String)
  | json500 (msg : String)
  | imageJpeg (body : Bytes)
deriving DecidableEq, Repr

/-- HTTP status code of a response (`send_file` answers 200). -/
def status : Response → Nat
  | Response.json400 _ => 400
  | Response.json500 _ => 500
  | Response.imageJpeg _ => 200

/-- Result of one request: the response, the final scratch file system, and
whether the swap model was invoked. -/
structure HResult where
  resp : Response
  fs : FS
  swapCalled : Bool
deriving DecidableEq, Repr

/-- Lines 107-114 (`elif source_url: ... else:`): obtain the source image
from the URL form field, or fail. -/
def acquire_source_url (env : Env) (req : Request) (fs : FS) :
    Except String (String × FS) :=
  match req.source_face_url with
  | some u =>
      if u = "" then Except.error "Source image is required"
      else
        match download_image_from_url env u with
        | Except.ok bytes => Except.ok (save_image_from_bytes bytes "source_image.jpg" fs)
        | Except.error e => Except.error ("Failed to download source image: " ++ e)
  | none => Except.error "Source image is required"

/-- Lines 103-114 (`if source_file: ...`): obtain the source image path,
saving the upload or the downloaded bytes into the scratch directory.
Every failure is a client error; no file is written on a failure. -/
def acquire_source (env : Env) (req : Request) (fs : FS) :
    Except String (String × FS) :=
  match req.source_face with
  | some f =>
      if f.filename = "" then acquire_source_url env req fs
      else if allowed_file f.filename then Except.ok (save_uploaded_file f fs)
      else Except.error "Invalid file type for source image. Only .png, .jpg, .jpeg are allowed"
  | none => acquire_source_url env req fs

/-- Lines 121-128 (`elif target_url: ... else:`). -/
def acquire_target_url (env : Env) (req : Request) (fs : FS) :
    Except String (String × FS) :=
  match req.target_url with
  | some u =>
      if u = "" then Except.error "Target image is required"
      else
        match download_image_from_url env u with
        | Except.ok bytes => Except.ok (save_image_from_bytes bytes "target_image.jpg" fs)
        | Except.error e => Except.error ("Failed to download target image: " ++ e)
  | none => Except.error "Target image is required"

/-- Lines 117-128 (`if target_file: ...`). -/
def acquire_target (env : Env) (req : Request) (fs : FS) :
    Except String (String × FS) :=
  match req.target_file with
  | some f =>
      if f.filename = "" then acquire_target_url env req fs
      else if allowed_file f.filename then Except.ok (save_uploaded_file f fs)
      else Except.error "Invalid file type for target image. Only .png, .jpg, .jpeg are allowed"
  | none => acquire_target_url env req fs

/-- Lines 139-168: resize the target, detect faces in both images (the
source at native resolution, the target resized), take the first face of
each, swap, encode.  The source no-face check precedes the target one; the
`try` around `swapper.get` answers `"Failed to swap faces"` (500); a resize
exception propagates to the outer catch-all (`"Internal server error"`). -/
def processDecoded (env : Env) (sImg tImg : Image) (fs : FS) :
    Except Err (Bytes × FS) :=
  match targetResize sImg tImg with
  | Except.error _ => Except.error ⟨ErrClass.server, "Internal server error", fs, false⟩
  | Except.ok resized =>
      match env.detect sImg, env.detect resized with
      | [], _ => Except.error ⟨ErrClass.client, "No face detected in source image", fs, false⟩
      | _ :: _, [] => Except.error ⟨ErrClass.client, "No face detected in target image", fs, false⟩
      | source_face :: _, target_face :: _ =>
          match env.swap resized target_face source_face with
          | Except.error _ => Except.error ⟨ErrClass.server, "Failed to swap faces", fs, true⟩
          | Except.ok result => Except.ok (env.encodeJpg result, fs)

/-- The body of `swap_faces` (src/app.py lines 88-174) up to the success
response: validation, acquisition of both images, decoding, and
`processDecoded`. -/
def swapCore (env : Env) (req : Request) (fs0 : FS) : Except Err (Bytes × FS) :=
  if !(fileTruthy req.target_file || strTruthy req.target_url)
      || !(fileTruthy req.source_face || strTruthy req.source_face_url) then
    Except.error ⟨ErrClass.client, "Both source and target images are required (file or URL)", fs0, false⟩
  else
    match acquire_source env req fs0 with
    | Except.error m => Except.error ⟨ErrClass.client, m, fs0, false⟩
    | Except.ok (source_image, fs1) =>
        match acquire_target env req fs1 with
        | Except.error m => Except.error ⟨ErrClass.client, m, fs1, false⟩
        | Except.ok (target_image, fs2) =>
            match imreadFS env fs2 source_image, imreadFS env fs2 target_image with
            | some sImg, some tImg => processDecoded env sImg tImg fs2
            | _, _ => Except.error ⟨ErrClass.client, "One of the images is invalid or corrupted", fs2, false⟩

/-- Map an early return to its JSON response. -/
def errToResp (e : Err) : Response :=
  match e.cls with
  | ErrClass.client => Response.json400 e.msg
  | ErrClass.server => Response.json500 e.msg

/-- Handler `swap_faces` (src/app.py lines 88-178): the full handler.  On success
the scratch directory is cleared (line 171) before the image response; an
early return leaves the file system as it then stands. -/
def swap_faces (env : Env) (req : Request) (fs0 : FS) : HResult :=
  match swapCore env req fs0 with
  | Except.error e => ⟨errToResp e, e.fs, e.swapCalled⟩
  | Except.ok (body, fs) => ⟨Response.imageJpeg body, clear_uploads_folder fs, true⟩

/-- State of the process-wide model globals (detector and swapper loaded at
startup); the health endpoint must not depend on it. -/
structure ModelState where
  detectorLoaded : Bool
  swapperLoaded : Bool

/-- The fixed JSON body of the health endpoint. -/
def healthMessage : String := "\x7b\x22message\x22: \x22Service is running\x22\x7d"

/-- Modelled from the spec: the `GET /health` route belongs to the second
route variant of this repository, which is not under src/ (src/app.py only
has `GET /` and `POST /swap-faces/`); spec section 6 records it as
`GET /health` returning `(200, a fixed JSON message)` independent of model
state. -/
def health (_st : ModelState) : Nat × String :=
  (200, healthMessage)

/-- An inert environment: every external call fails or returns nothing. -/
def envNil : Env :=
  ⟨fun _ => none, fun _ => none, fun _ => [], fun _ _ _ => Except.error (), fun _ => []⟩

/-- An environment where every step succeeds: every byte string decodes to
a 100×100 image, the detector finds one face everywhere, the swap and the
encoder succeed. -/
def envOk : Env :=
  ⟨fun _ => some (200, [7]), fun _ => some ⟨100, 100, 0⟩, fun _ => [0],
   fun _ _ _ => Except.ok ⟨100, 100, 5⟩, fun _ => [9, 9]⟩

/-- Like `envOk` but the detector finds no face in any image. -/
def envZero : Env :=
  ⟨fun _ => some (200, [7]), fun _ => some ⟨100, 100, 0⟩, fun _ => [],
   fun _ _ _ => Except.ok ⟨100, 100, 5⟩, fun _ => [9, 9]⟩

/-- Like `envOk` but the source (content `[1]`) decodes to a 640-wide image
and the target (content `[2]`) to a 1000×1 strip (width 1000, height 1). -/
def envWide : Env :=
  ⟨fun _ => some (200, [7]),
   fun b => if b = [1] then some ⟨100, 640, 1⟩ else some ⟨1, 1000, 2⟩,
   fun _ => [0], fun _ _ _ => Except.ok ⟨100, 100, 5⟩, fun _ => [9, 9]⟩

/-- A request uploading both images as files, source content `[1]`, target
content `[2]`. -/
def reqFiles (sname tname : String) : Request :=
  ⟨some ⟨tname, [2]⟩, some ⟨sname, [1]⟩, none, none⟩

/-- A request with no image on either side. -/
def reqEmpty : Request := ⟨none, none, none, none⟩

/-! Helper lemmas shared by several claims. -/

lemma swap_faces_error (env : Env) (req : Request) (fs0 : FS) (e : Err)
    (h : swapCore env req fs0 = Except.error e) :
    swap_faces env req fs0 = ⟨errToResp e, e.fs, e.swapCalled⟩ := by
  unfold swap_faces
  rw [h]

lemma swap_faces_ok (env : Env) (req : Request) (fs0 : FS) (b : Bytes) (fs : FS)
    (h : swapCore env req fs0 = Except.ok (b, fs)) :
    swap_faces env req fs0 = ⟨Response.imageJpeg b, clear_uploads_folder fs, true⟩ := by
  unfold swap_faces
  rw [h]

lemma status_errToResp (e : Err) :
    status (errToResp e) = (match e.cls with
      | ErrClass.client => 400
      | ErrClass.server => 500) := by
  unfold errToResp
  cases e.cls <;> rfl

lemma status_errToResp_ne_200 (e : Err) : status (errToResp e) ≠ 200 := by
  rw [status_errToResp]
  cases e.cls <;> simp

lemma clear_uploads_all (fs : FS) :
    (clear_uploads_folder fs).all (fun e => !(inUploadDir e.1)) = true := by
  unfold clear_uploads_folder
  rw [List.all_eq_true]
  intro e he
  exact (List.mem_filter.mp he).2

/-- C1.  The claim says the scratch directory ends empty of the request's
files after every request, successful or failed.  It fails: a request whose
source upload is saved and whose target upload then has a disallowed
extension returns 400 with the saved source file still present, because
`clear_uploads_folder` is only called on the success path (line 171). -/
theorem cleanup_after_failure_cex :
    status (swap_faces envNil (reqFiles "a.png" "b.txt") []).resp = 400 ∧
    (swap_faces envNil (reqFiles "a.png" "b.txt") []).fs = [("uploads/a.png", [1])] ∧
    fsRead (swap_faces envNil (reqFiles "a.png" "b.txt") []).fs "uploads/a.png" = some [1] :=
  ⟨rfl, rfl, rfl⟩

/-- C1 (amended).  The scratch directory is cleared exactly on the success
path: whenever the handler answers 200 with the swapped image, the final
file system holds no regular file of the uploads folder; on failure
returns the files created by the request remain. -/
theorem cleanup_only_on_success (env : Env) (req : Request) (fs0 : FS)
    (h : status (swap_faces env req fs0).resp = 200) :
    (swap_faces env req fs0).fs.all (fun e => !(inUploadDir e.1)) = true := by
  cases hc : swapCore env req fs0 with
  | error e =>
      rw [swap_faces_error env req fs0 e hc] at h
      exact absurd h (status_errToResp_ne_200 e)
  | ok pr =>
      obtain ⟨b, fs⟩ := pr
      rw [swap_faces_ok env req fs0 b fs hc]
      exact clear_uploads_all fs

/-- C1 witness: a fully successful request ends with status 200 and a
scratch directory free of upload files. -/
theorem cleanup_only_on_success_witness :
    status (swap_faces envOk (reqFiles "a.png" "b.jpg") []).resp = 200 ∧
    (swap_faces envOk (reqFiles "a.png" "b.jpg") []).fs.all (fun e => !(inUploadDir e.1)) = true :=
  ⟨rfl, cleanup_only_on_success envOk (reqFiles "a.png" "b.jpg") [] rfl⟩

/-- C2.  The health endpoint (modelled from the spec, second route variant)
answers 200 with the fixed JSON message, independent of the model state. -/
theorem health_fixed (st st' : ModelState) :
    health st = (200, healthMessage) ∧ health st = health st' :=
  ⟨rfl, rfl⟩

/-- C4.  A request providing neither a source file nor a source URL (or
neither target equivalent) is answered 400 and the swap model is never
invoked. -/
theorem missing_side_400 (env : Env) (req : Request) (fs0 : FS)
    (h : (req.source_face = none ∧ req.source_face_url = none) ∨
         (req.target_file = none ∧ req.target_url = none)) :
    status (swap_faces env req fs0).resp = 400 ∧
    (swap_faces env req fs0).swapCalled = false := by
  have hcond : (!(fileTruthy req.target_file || strTruthy req.target_url)
      || !(fileTruthy req.source_face || strTruthy req.source_face_url)) = true := by
    rcases h with ⟨h1, h2⟩ | ⟨h1, h2⟩ <;> simp [h1, h2, fileTruthy, strTruthy]
  have hc : swapCore env req fs0 =
      Except.error ⟨ErrClass.client,
        "Both source and target images are required (file or URL)", fs0, false⟩ := by
    unfold swapCore
    rw [hcond]
    rfl
  rw [swap_faces_error env req fs0 _ hc]
  exact ⟨rfl, rfl⟩

/-- C4 witness: the empty request is answered 400 without a model call. -/
theorem missing_side_400_witness :
    status (swap_faces envNil reqEmpty []).resp = 400 ∧
    (swap_faces envNil reqEmpty []).swapCalled = false :=
  missing_side_400 envNil reqEmpty [] (Or.inl ⟨rfl, rfl⟩)

/-- Boolean substring test on character lists, used to state that an error
message mentions a given word. -/
def hasInfix (a : List Char) : List Char → Bool
  | [] => a.isPrefixOf []
  | b :: t => a.isPrefixOf (b :: t) || hasInfix a t

lemma hasInfix_append_left (a b c : List Char) (h : hasInfix a b = true) :
    hasInfix a (b ++ c) = true := by
  induction b with
  | nil =>
      have ha : a = [] := by
        cases a with
        | nil => rfl
        | cons x t => simp [hasInfix, List.isPrefixOf] at h
      subst ha
      cases c with
      | nil => rfl
      | cons y u => simp [hasInfix, List.isPrefixOf]
  | cons x t ih =>
      simp only [hasInfix, Bool.or_eq_true] at h
      rcases h with h | h
      · have hp : a <+: (x :: t) := List.isPrefixOf_iff_prefix.mp h
        have : a <+: (x :: t) ++ c := hp.trans (List.prefix_append _ _)
        simp only [List.cons_append, hasInfix, Bool.or_eq_true]
        exact Or.inl (List.isPrefixOf_iff_prefix.mpr this)
      · simp only [List.cons_append, hasInfix, Bool.or_eq_true]
        exact Or.inr (ih h)

lemma lowerChar_eq_dot (c : Char) : lowerChar c = '.' ↔ c = '.' := by
  unfold lowerChar
  split <;> simp_all

lemma afterLastDot_strLower (s : String) :
    afterLastDot (strLower s) = strLower (afterLastDot s) := by
  unfold afterLastDot strLower
  show ((((s.toList.map lowerChar).asString.toList).reverse.takeWhile
      (fun c => c ≠ '.')).reverse).asString = _
  have h1 : (s.toList.map lowerChar).asString.toList = s.toList.map lowerChar := rfl
  have h2 : ((s.toList.reverse.takeWhile (fun c => c ≠ '.')).reverse).asString.toList
      = (s.toList.reverse.takeWhile (fun c => c ≠ '.')).reverse := rfl
  rw [h1, h2]
  have h3 : (fun c => decide (c ≠ '.')) ∘ lowerChar = (fun c => decide (c ≠ '.')) := by
    funext c
    simp [Function.comp, lowerChar_eq_dot]
  congr 1
  rw [← List.map_reverse, List.takeWhile_map, h3, List.map_reverse]

/-- C5.  `allowed_file` accepts a filename exactly when it contains a dot
and its last dot-separated suffix, lowercased, is one of png/jpg/jpeg
(lowercasing the whole name first, as the code does, is the same test);
and a request uploading a file (non-empty filename) that fails this test on
either side is answered 400, whatever the file content. -/
theorem disallowed_extension_400 :
    (∀ f : String, allowed_file f = allowed_file_spec f) ∧
    (∀ (env : Env) (req : Request) (fs0 : FS) (f : UploadedFile),
      req.source_face = some f → f.filename ≠ "" → allowed_file f.filename = false →
      status (swap_faces env req fs0).resp = 400) ∧
    (∀ (env : Env) (req : Request) (fs0 : FS) (f : UploadedFile),
      req.target_file = some f → f.filename ≠ "" → allowed_file f.filename = false →
      status (swap_faces env req fs0).resp = 400) := by
  refine ⟨?_, ?_, ?_⟩
  · intro f
    unfold allowed_file allowed_file_spec
    rw [afterLastDot_strLower]
  · intro env req fs0 f hsf hne hall
    have hacq : acquire_source env req fs0 = Except.error
        "Invalid file type for source image. Only .png, .jpg, .jpeg are allowed" := by
      unfold acquire_source
      rw [hsf]
      simp [hne, hall]
    cases hcond : (!(fileTruthy req.target_file || strTruthy req.target_url)
        || !(fileTruthy req.source_face || strTruthy req.source_face_url)) with
    | true =>
        have hc : swapCore env req fs0 = Except.error ⟨ErrClass.client,
            "Both source and target images are required (file or URL)", fs0, false⟩ := by
          unfold swapCore
          rw [hcond]
          rfl
        rw [swap_faces_error env req fs0 _ hc]
        rfl
    | false =>
        have hc : swapCore env req fs0 = Except.error ⟨ErrClass.client,
            "Invalid file type for source image. Only .png, .jpg, .jpeg are allowed",
            fs0, false⟩ := by
          unfold swapCore
          rw [hcond]
          simp [hacq]
        rw [swap_faces_error env req fs0 _ hc]
        rfl
  · intro env req fs0 f htf hne hall
    have hacq : ∀ fs1 : FS, acquire_target env req fs1 = Except.error
        "Invalid file type for target image. Only .png, .jpg, .jpeg are allowed" := by
      intro fs1
      unfold acquire_target
      rw [htf]
      simp [hne, hall]
    cases hcond : (!(fileTruthy req.target_file || strTruthy req.target_url)
        || !(fileTruthy req.source_face || strTruthy req.source_face_url)) with
    | true =>
        have hc : swapCore env req fs0 = Except.error ⟨ErrClass.client,
            "Both source and target images are required (file or URL)", fs0, false⟩ := by
          unfold swapCore
          rw [hcond]
          rfl
        rw [swap_faces_error env req fs0 _ hc]
        rfl
    | false =>
        cases hs : acquire_source env req fs0 with
        | error m =>
            have hc : swapCore env req fs0 =
                Except.error ⟨ErrClass.client, m, fs0, false⟩ := by
              unfold swapCore
              rw [hcond]
              simp [hs]
            rw [swap_faces_error env req fs0 _ hc]
            rfl
        | ok pr =>
            obtain ⟨p, fs1⟩ := pr
            have hc : swapCore env req fs0 = Except.error ⟨ErrClass.client,
                "Invalid file type for target image. Only .png, .jpg, .jpeg are allowed",
                fs1, false⟩ := by
              unfold swapCore
              rw [hcond]
              simp [hs, hacq fs1]
            rw [swap_faces_error env req fs0 _ hc]
            rfl

/-- C5 witness: a `.gif` upload is rejected with 400. -/
theorem disallowed_extension_400_witness :
    allowed_file "s.gif" = false ∧
    status (swap_faces envNil ⟨some ⟨"t.jpg", [2]⟩, some ⟨"s.gif", [1]⟩, none, none⟩ []).resp = 400 :=
  ⟨rfl, disallowed_extension_400.2.1 envNil
    ⟨some ⟨"t.jpg", [2]⟩, some ⟨"s.gif", [1]⟩, none, none⟩ [] ⟨"s.gif", [1]⟩
    rfl (by decide) rfl⟩

/-- C3.  When the resize succeeds, the resized target has width
`min 640 source.width` and height the floor of that width divided by the
target's aspect ratio; and the processing outcome depends on the detector
only through its values at the untouched source image and at the resized
target (the source is never resized, so detection runs on the source at
native resolution). -/
theorem resize_dimensions :
    (∀ s t r : Image, targetResize s t = Except.ok r →
      r.width = min 640 s.width ∧ r.height = (min 640 s.width) * t.height / t.width) ∧
    (∀ (env : Env) (d : Image → List Face) (s t : Image) (fs : FS),
      d s = env.detect s →
      (∀ r, targetResize s t = Except.ok r → d r = env.detect r) →
      processDecoded { env with detect := d } s t fs = processDecoded env s t fs) := by
  constructor
  · intro s t r h
    unfold targetResize MAX_WIDTH at h
    split at h
    · exact absurd h (by simp)
    · split at h
      · exact absurd h (by simp)
      · injection h with h
        subst h
        exact ⟨rfl, rfl⟩
  · intro env d s t fs h1 h2
    unfold processDecoded
    cases hr : targetResize s t with
    | error u => rfl
    | ok r =>
        dsimp only
        rw [h1, h2 r hr]

/-- C3 witness: a 300-wide, 100-high target against a 200-wide source is
resized to 200×66. -/
theorem resize_dimensions_witness :
    (Image.mk 66 200 2).width = min 640 (Image.mk 50 200 1).width ∧
    (Image.mk 66 200 2).height =
      (min 640 (Image.mk 50 200 1).width) * (Image.mk 100 300 2).height / (Image.mk 100 300 2).width :=
  resize_dimensions.1 ⟨50, 200, 1⟩ ⟨100, 300, 2⟩ ⟨66, 200, 2⟩ rfl

/-- C6 counterexample.  The claim says every request whose target image
yields zero detected faces is answered with an error mentioning the target;
but when the source also yields zero faces (here the detector finds no face
anywhere, in particular none in the resized target `⟨100, 100, 0⟩`), the
source check fires first and the message mentions only the source. -/
theorem no_face_target_message_cex :
    (swap_faces envZero (reqFiles "a.png" "b.jpg") []).resp =
      Response.json400 "No face detected in source image" ∧
    envZero.detect ⟨100, 100, 0⟩ = [] ∧
    hasInfix "target".toList "No face detected in source image".toList = false :=
  ⟨rfl, rfl, by decide⟩

/-- C6 (amended).  Once both images are decoded and the resize succeeded:
zero faces in the source give a 400 client error mentioning the source
(this check takes precedence when both images have zero faces); zero faces
in the resized target, with at least one source face, give a 400 client
error mentioning the target; in both cases the swap model is not invoked
(`swapCalled = false` in the early return). -/
theorem no_face_400 (env : Env) (s t : Image) (fs : FS) (r : Image)
    (hr : targetResize s t = Except.ok r) :
    (env.detect s = [] →
      processDecoded env s t fs = Except.error
        ⟨ErrClass.client, "No face detected in source image", fs, false⟩) ∧
    (∀ f l, env.detect s = f :: l → env.detect r = [] →
      processDecoded env s t fs = Except.error
        ⟨ErrClass.client, "No face detected in target image", fs, false⟩) ∧
    hasInfix "source".toList "No face detected in source image".toList = true ∧
    hasInfix "target".toList "No face detected in target image".toList = true := by
  refine ⟨?_, ?_, by decide, by decide⟩
  · intro hz
    unfold processDecoded
    rw [hr, hz]
  · intro f l hf ht
    unfold processDecoded
    rw [hr]
    dsimp only
    rw [hf, ht]

/-- C6 witness: with a detector that finds no face anywhere, processing
ends in the 400 source error without a model call. -/
theorem no_face_400_witness :
    processDecoded envZero ⟨100, 100, 0⟩ ⟨100, 100, 0⟩ [] = Except.error
      ⟨ErrClass.client, "No face detected in source image", [], false⟩ :=
  (no_face_400 envZero ⟨100, 100, 0⟩ ⟨100, 100, 0⟩ [] ⟨100, 100, 0⟩ rfl).1 rfl

lemma acquire_source_url_ok_truthy (env : Env) (req : Request) (fs0 : FS)
    (x : String × FS) (h : acquire_source_url env req fs0 = Except.ok x) :
    strTruthy req.source_face_url = true := by
  unfold acquire_source_url at h
  cases hq : req.source_face_url with
  | none =>
      rw [hq] at h
      exact absurd h (by simp)
  | some u =>
      rw [hq] at h
      dsimp only at h
      by_cases hu : u = ""
      · rw [if_pos hu] at h
        exact absurd h (by simp)
      · simp [strTruthy, hu]

lemma acquire_source_ok_truthy (env : Env) (req : Request) (fs0 : FS)
    (x : String × FS) (h : acquire_source env req fs0 = Except.ok x) :
    (fileTruthy req.source_face || strTruthy req.source_face_url) = true := by
  unfold acquire_source at h
  cases hq : req.source_face with
  | none =>
      rw [hq] at h
      simp [acquire_source_url_ok_truthy env req fs0 x h]
  | some f =>
      rw [hq] at h
      dsimp only at h
      by_cases hf : f.filename = ""
      · rw [if_pos hf] at h
        simp [acquire_source_url_ok_truthy env req fs0 x h]
      · simp [fileTruthy, hf]

/-- C7.  `download_image_from_url` returns the exact response body on
status 200 and raises exactly when the GET does not complete with 200; the
handler turns a failed download into a 400 answer whose message names the
failing side. -/
theorem download_failure_400 :
    (∀ (env : Env) (url : String) (b : Bytes),
      download_image_from_url env url = Except.ok b ↔ env.httpGet url = some (200, b)) ∧
    (∀ (env : Env) (url : String),
      (∃ e, download_image_from_url env url = Except.error e) ↔
      ∀ b, env.httpGet url ≠ some (200, b)) ∧
    (∀ (env : Env) (req : Request) (fs0 : FS) (u e : String),
      fileTruthy req.source_face = false →
      req.source_face_url = some u → u ≠ "" →
      (fileTruthy req.target_file || strTruthy req.target_url) = true →
      download_image_from_url env u = Except.error e →
      (swap_faces env req fs0).resp =
        Response.json400 ("Failed to download source image: " ++ e) ∧
      hasInfix "source".toList ("Failed to download source image: " ++ e).toList = true) ∧
    (∀ (env : Env) (req : Request) (fs0 : FS) (u e p : String) (fs1 : FS),
      acquire_source env req fs0 = Except.ok (p, fs1) →
      fileTruthy req.target_file = false →
      req.target_url = some u → u ≠ "" →
      download_image_from_url env u = Except.error e →
      (swap_faces env req fs0).resp =
        Response.json400 ("Failed to download target image: " ++ e) ∧
      hasInfix "target".toList ("Failed to download target image: " ++ e).toList = true) := by
  refine ⟨?_, ?_, ?_, ?_⟩
  · intro env url b
    unfold download_image_from_url
    cases hg : env.httpGet url with
    | none => simp
    | some pr =>
        obtain ⟨c, body⟩ := pr
        by_cases hc : c = 200 <;> simp [hc]
  · intro env url
    unfold download_image_from_url
    cases hg : env.httpGet url with
    | none => simp
    | some pr =>
        obtain ⟨c, body⟩ := pr
        by_cases hc : c = 200 <;> simp [hc]
  · intro env req fs0 u e hsf hsu hne hta hde
    have hau : acquire_source_url env req fs0 =
        Except.error ("Failed to download source image: " ++ e) := by
      unfold acquire_source_url
      rw [hsu]
      simp [hne, hde]
    have has : acquire_source env req fs0 =
        Except.error ("Failed to download source image: " ++ e) := by
      unfold acquire_source
      cases hq : req.source_face with
      | none => exact hau
      | some f =>
          have hf : f.filename = "" := by
            rw [hq] at hsf
            simpa [fileTruthy] using hsf
          simp [hf, hau]
    have hcond : (!(fileTruthy req.target_file || strTruthy req.target_url)
        || !(fileTruthy req.source_face || strTruthy req.source_face_url)) = false := by
      rw [hta, hsu, hsf]
      simp [strTruthy, hne]
    have hc : swapCore env req fs0 = Except.error
        ⟨ErrClass.client, "Failed to download source image: " ++ e, fs0, false⟩ := by
      unfold swapCore
      rw [hcond]
      simp [has]
    refine ⟨by rw [swap_faces_error env req fs0 _ hc]; rfl, ?_⟩
    have hbase : hasInfix "source".toList "Failed to download source image: ".toList = true := by
      decide
    have happ := hasInfix_append_left _ _ e.toList hbase
    have hsplit : ("Failed to download source image: " ++ e).toList
        = "Failed to download source image: ".toList ++ e.toList := rfl
    rw [hsplit]
    exact happ
  · intro env req fs0 u e p fs1 hs htf htu hne hde
    have h1 := acquire_source_ok_truthy env req fs0 (p, fs1) hs
    have hau : acquire_target_url env req fs1 =
        Except.error ("Failed to download target image: " ++ e) := by
      unfold acquire_target_url
      rw [htu]
      simp [hne, hde]
    have hat : acquire_target env req fs1 =
        Except.error ("Failed to download target image: " ++ e) := by
      unfold acquire_target
      cases hq : req.target_file with
      | none => exact hau
      | some f =>
          have hf : f.filename = "" := by
            rw [hq] at htf
            simpa [fileTruthy] using htf
          simp [hf, hau]
    have hcond : (!(fileTruthy req.target_file || strTruthy req.target_url)
        || !(fileTruthy req.source_face || strTruthy req.source_face_url)) = false := by
      rw [htu, htf, h1]
      simp [strTruthy, hne]
    have hc : swapCore env req fs0 = Except.error
        ⟨ErrClass.client, "Failed to download target image: " ++ e, fs1, false⟩ := by
      unfold swapCore
      rw [hcond]
      simp [hs, hat]
    refine ⟨by rw [swap_faces_error env req fs0 _ hc]; rfl, ?_⟩
    have hbase : hasInfix "target".toList "Failed to download target image: ".toList = true := by
      decide
    have happ := hasInfix_append_left _ _ e.toList hbase
    have hsplit : ("Failed to download target image: " ++ e).toList
        = "Failed to download target image: ".toList ++ e.toList := rfl
    rw [hsplit]
    exact happ

/-- C7 witness: a network failure on the source URL is answered 400 with a
message naming the source. -/
theorem download_failure_400_witness :
    (swap_faces envNil ⟨some ⟨"b.jpg", [2]⟩, none, none, some "http://x"⟩ []).resp =
      Response.json400
        ("Failed to download source image: " ++ "Error al descargar la imagen desde la URL") ∧
    hasInfix "source".toList
      ("Failed to download source image: " ++ "Error al descargar la imagen desde la URL").toList
      = true :=
  download_failure_400.2.2.1 envNil ⟨some ⟨"b.jpg", [2]⟩, none, none, some "http://x"⟩ []
    "http://x" "Error al descargar la imagen desde la URL" rfl rfl (by decide) rfl rfl

/-- Like `envOk` but the swap model call raises. -/
def envSwapFail : Env :=
  ⟨fun _ => some (200, [7]), fun _ => some ⟨100, 100, 0⟩, fun _ => [0],
   fun _ _ _ => Except.error (), fun _ => [9, 9]⟩

lemma fsRead_fsWrite (fs : FS) (p : String) (b : Bytes) :
    fsRead (fsWrite fs p b) p = some b := by
  unfold fsRead fsWrite
  rw [List.find?_cons_of_pos _ (by simp)]
  rfl

/-- C8.  Client-class early returns are answered 400 and server-class ones
500; a raised swap model call produces the 500 `Failed to swap faces`
server error (with the model marked as invoked), and the modelled
unclassified exception (a resize failure reaching the catch-all) produces
the generic 500 `Internal server error`. -/
theorem swap_failure_500 :
    (∀ (env : Env) (req : Request) (fs0 : FS) (e : Err),
      swapCore env req fs0 = Except.error e →
      (swap_faces env req fs0).resp = errToResp e ∧
      status (errToResp e) = (match e.cls with
        | ErrClass.client => 400
        | ErrClass.server => 500)) ∧
    (∀ (env : Env) (s t : Image) (fs : FS) (r : Image) (sf tf : Face) (sl tl : List Face),
      targetResize s t = Except.ok r →
      env.detect s = sf :: sl →
      env.detect r = tf :: tl →
      env.swap r tf sf = Except.error () →
      processDecoded env s t fs =
        Except.error ⟨ErrClass.server, "Failed to swap faces", fs, true⟩) ∧
    (∀ (env : Env) (s t : Image) (fs : FS),
      targetResize s t = Except.error () →
      processDecoded env s t fs =
        Except.error ⟨ErrClass.server, "Internal server error", fs, false⟩) := by
  refine ⟨?_, ?_, ?_⟩
  · intro env req fs0 e h
    rw [swap_faces_error env req fs0 e h]
    exact ⟨rfl, status_errToResp e⟩
  · intro env s t fs r sf tf sl tl hr hds hdt hsw
    unfold processDecoded
    rw [hr]
    dsimp only
    rw [hds, hdt]
    dsimp only
    rw [hsw]
  · intro env s t fs hr
    unfold processDecoded
    rw [hr]

/-- C8 witness: a raising swap model yields the 500 swap error with the
model marked invoked. -/
theorem swap_failure_500_witness :
    processDecoded envSwapFail ⟨100, 100, 0⟩ ⟨100, 100, 0⟩ [] =
      Except.error ⟨ErrClass.server, "Failed to swap faces", [], true⟩ :=
  swap_failure_500.2.1 envSwapFail ⟨100, 100, 0⟩ ⟨100, 100, 0⟩ [] ⟨100, 100, 0⟩
    0 0 [] [] rfl rfl rfl rfl

/-- C9.  `save_uploaded_file` stores the upload at the scratch directory
joined with the client-supplied filename, unchanged: no sanitization,
uniquification or rewriting; a filename with path separators (or an
absolute one, which POSIX join lets replace the directory entirely) fully
controls the on-disk location, and the stored content is the upload's. -/
theorem save_path_client_controlled (f : UploadedFile) (fs : FS) :
    (save_uploaded_file f fs).1 = pathJoin UPLOAD_FOLDER f.filename ∧
    (save_uploaded_file f fs).1 =
      (if f.filename.toList.head? = some '/' then f.filename
       else "uploads/" ++ f.filename) ∧
    fsRead (save_uploaded_file f fs).2 (save_uploaded_file f fs).1 = some f.content := by
  refine ⟨rfl, ?_, ?_⟩
  · show pathJoin UPLOAD_FOLDER f.filename = _
    unfold pathJoin UPLOAD_FOLDER
    split
    · rfl
    · rw [if_neg (by decide)]
      apply String.ext
      simp only [String.data_append]
      rfl
  · exact fsRead_fsWrite fs (pathJoin UPLOAD_FOLDER f.filename) f.content

/-- C10.  A target whose width exceeds 640 times its height, with a source
at least 640 wide, makes the computed resize height 0; the resize then
raises, reaches the catch-all, and the request is answered with the 500
internal server error rather than a 400 client error. -/
theorem degenerate_aspect_500 :
    (∀ (env : Env) (s t : Image) (fs : FS),
      640 ≤ s.width → 640 * t.height < t.width →
      (min 640 s.width) * t.height / t.width = 0 ∧
      targetResize s t = Except.error () ∧
      processDecoded env s t fs =
        Except.error ⟨ErrClass.server, "Internal server error", fs, false⟩) ∧
    (∀ (env : Env) (req : Request) (fs0 : FS) (e : Err),
      swapCore env req fs0 = Except.error e → e.cls = ErrClass.server →
      status (swap_faces env req fs0).resp = 500) := by
  constructor
  · intro env s t fs hsw hlt
    have hmin : min 640 s.width = 640 := Nat.min_eq_left hsw
    have h0 : (min 640 s.width) * t.height / t.width = 0 := by
      rw [hmin]
      exact Nat.div_eq_of_lt hlt
    have hres : targetResize s t = Except.error () := by
      unfold targetResize MAX_WIDTH
      by_cases hz : t.height = 0 ∨ t.width = 0
      · rw [if_pos hz]
      · rw [if_neg hz, if_pos (Or.inr h0)]
    have hproc : processDecoded env s t fs =
        Except.error ⟨ErrClass.server, "Internal server error", fs, false⟩ := by
      unfold processDecoded
      rw [hres]
    exact ⟨h0, hres, hproc⟩
  · intro env req fs0 e h hcls
    rw [swap_faces_error env req fs0 e h]
    dsimp only
    rw [status_errToResp, hcls]

/-- C10 witness: a 1000×1 target against a 640-wide source ends in the 500
internal server error, both at the processing stage and for the full
request. -/
theorem degenerate_aspect_500_witness :
    processDecoded envWide ⟨100, 640, 1⟩ ⟨1, 1000, 2⟩ [] =
      Except.error ⟨ErrClass.server, "Internal server error", [], false⟩ ∧
    status (swap_faces envWide (reqFiles "a.png" "b.jpg") []).resp = 500 :=
  ⟨(degenerate_aspect_500.1 envWide ⟨100, 640, 1⟩ ⟨1, 1000, 2⟩ [] (by decide) (by decide)).2.2,
   degenerate_aspect_500.2 envWide (reqFiles "a.png" "b.jpg") []
     ⟨ErrClass.server, "Internal server error",
      [("uploads/b.jpg", [2]), ("uploads/a.png", [1])], false⟩ rfl rfl⟩

end FaceSwap
